import Mathlib

/-!
Verification development for the server bootstrap shim in `cmd/server/main.go`
of the Golang-canvas repository.  The file embeds the shim shallowly:

* `getStringOrDefault` / `getIntOrDefault` — configuration resolution over an
  explicit OS environment (`String → Option String` models `os.LookupEnv`);
* `atoi` — the behaviour of Go's `strconv.Atoi` on 64-bit platforms
  (optional sign, base-10 digits, signed 64-bit range check);
* `createLogger` — the logger-profile switch over the environment name;
* the `start` function — modelled as a producer of a timestamped event trace
  plus an exit code.  The one goroutine registered with the errgroup is
  embedded as a list of statements (`Stmt`) run by `runStmts`; crucially the
  source statement `ctx.Done()` is an *expression statement* that merely
  returns the cancellation channel and discards it (it is not a receive
  `<-ctx.Done()`), so it is embedded as `Stmt.exprDone`, which never waits.
-/

namespace Canvas

/-- Go `error` values, abstracted by their message.  `Option GoError` plays
Go's nullable `error`: `none` is `nil`. -/
abbrev GoError := String

/-! ## Configuration resolution (`getStringOrDefault`, `getIntOrDefault`, `strconv.Atoi`) -/

/-- An OS environment: `os.LookupEnv name` returns `(v, true)` when the
variable is set (possibly to the empty string) and `("", false)` otherwise;
we model it as `Option String`. -/
abbrev OsEnv := String → Option String

/-- `getStringOrDefault` from `cmd/server/main.go`: the environment's value if
the variable is set, otherwise the caller-supplied default. -/
def getStringOrDefault (env : OsEnv) (name defaultV : String) : String :=
  match env name with
  | none => defaultV
  | some v => v

/-- Numeric value of an ASCII decimal digit, `none` on any other character
(Go's base-10 `ParseUint` accepts only `'0'..'9'`). -/
def digitVal (c : Char) : Option Nat :=
  if '0' ≤ c ∧ c ≤ '9' then some (c.toNat - '0'.toNat) else none

/-- Accumulating base-10 digit parse: `none` as soon as a non-digit appears. -/
def parseDigits : List Char → Nat → Option Nat
  | [], acc => some acc
  | c :: rest, acc =>
    match digitVal c with
    | some d => parseDigits rest (acc * 10 + d)
    | none => none

/-- Largest signed 64-bit integer, the positive cutoff of Go's `int` on
64-bit platforms. -/
def int64MaxNat : Nat := 2 ^ 63 - 1

/-- Magnitude cutoff for negative signed 64-bit integers. -/
def int64MinMagnitude : Nat := 2 ^ 63

/-- Go's `strconv.Atoi` (i.e. `ParseInt(s, 10, 0)` with 64-bit `int`):
optional single `+`/`-` sign, then one or more ASCII digits, with a signed
64-bit range check.  `none` stands for any returned error (`ErrSyntax` or
`ErrRange`); the shim only tests `err != nil`, so the error kind is
irrelevant. -/
def atoi (s : String) : Option Int :=
  match s.data with
  | [] => none
  | '+' :: rest =>
    if rest = [] then none
    else (parseDigits rest 0).bind fun n =>
      if n ≤ int64MaxNat then some (n : Int) else none
  | '-' :: rest =>
    if rest = [] then none
    else (parseDigits rest 0).bind fun n =>
      if n ≤ int64MinMagnitude then some (-(n : Int)) else none
  | cs =>
    (parseDigits cs 0).bind fun n =>
      if n ≤ int64MaxNat then some (n : Int) else none

/-- `getIntOrDefault` from `cmd/server/main.go`: the default if the variable
is unset or `strconv.Atoi` fails, otherwise the parsed integer unchanged. -/
def getIntOrDefault (env : OsEnv) (name : String) (defaultV : Int) : Int :=
  match env name with
  | none => defaultV
  | some v =>
    match atoi v with
    | none => defaultV
    | some vAsInt => vAsInt

/-! ## Logger construction (`createLogger`) -/

/-- The three preconfigured zap behaviours the shim can select. -/
inductive LoggerProfile where
  | production
  | development
  | nop
deriving DecidableEq, Repr

/-- Outcomes of the external zap constructors: `zap.NewProduction` and
`zap.NewDevelopment` are fallible (their error outcome is a parameter of the
model); `zap.NewNop` cannot fail and the source returns a literal `nil`
error for it. -/
structure ZapWorld where
  newProduction : Option GoError
  newDevelopment : Option GoError

/-- `createLogger` from `cmd/server/main.go`: Go's `switch env` is a
sequential equality test against `"production"` then `"development"`, with
`zap.NewNop(), nil` in the `default` arm. -/
def createLogger (w : ZapWorld) (env : String) : LoggerProfile × Option GoError :=
  if env = "production" then (LoggerProfile.production, w.newProduction)
  else if env = "development" then (LoggerProfile.development, w.newDevelopment)
  else (LoggerProfile.nop, none)

/-! ## The `start` function as a trace producer -/

/-- Delivery of the monitored OS signals (SIGTERM / SIGINT): the time of the
first delivery, `none` when no signal is ever delivered.
`signal.NotifyContext` cancels its context at exactly that time. -/
structure SignalEnv where
  firstSignal : Option Nat

/-- The options literal passed to `server.New` (the `*zap.Logger` handle is
abstracted by the selected profile). -/
structure ServerOptions where
  Host : String
  Log : LoggerProfile
  Port : Int
deriving DecidableEq, Repr

/-- Observable events of a run, paired with the (logical) time at which they
happen. -/
inductive Event where
  /-- `fmt.Println` output on standard output. -/
  | printErr (msg : String)
  /-- `server.New(opts)` is evaluated. -/
  | serverCreated (opts : ServerOptions)
  /-- `s.Stop()` is invoked. -/
  | stopCalled
  /-- a `log.Info` record is emitted. -/
  | logInfo (msg : String)
  /-- the deferred `log.Sync()` runs. -/
  | logSynced
  /-- the process exits with the given status (`os.Exit(start())`). -/
  | exited (code : Nat)
deriving DecidableEq, Repr

/-- The whole external world a run of `start` interacts with. -/
structure World where
  osEnv : OsEnv
  zap : ZapWorld
  sig : SignalEnv
  /-- result of the single `s.Stop()` call of the unseen server (`none` =
  `nil`, success). -/
  stopResult : Option GoError

/-- Statements of the goroutine body, at the granularity the claims need. -/
inductive Stmt where
  /-- the expression statement `ctx.Done()`: evaluates to the cancellation
  channel and discards it; returns immediately, never waits. -/
  | exprDone
  /-- a receive `<-ctx.Done()`: suspends until the context is cancelled by a
  signal (forever when no signal is ever delivered).  Not present in the
  source body; kept in the statement language to express what receiving
  would do. -/
  | recvDone
  /-- `if err := s.Stop(); err != nil { log.Info("Error stopping server",
  zap.Error(err)); return err }; return nil` — calls `Stop`, logs on
  failure, and returns `Stop`'s error value. -/
  | stopServer

/-- Events produced by the `stopServer` statement at time `t`: the `Stop`
call itself, plus one `log.Info` record exactly when `Stop` failed. -/
def stopAttemptEvents (t : Nat) (res : Option GoError) : List (Nat × Event) :=
  match res with
  | some _ => [(t, Event.stopCalled), (t, Event.logInfo "Error stopping server")]
  | none => [(t, Event.stopCalled)]

/-- Result of running a goroutine body: either it finishes with a trace, a
finishing time and a Go return value, or it is blocked forever. -/
inductive TaskRun where
  | finished (trace : List (Nat × Event)) (endTime : Nat) (ret : Option GoError)
  | blockedForever (trace : List (Nat × Event))

/-- Run a list of goroutine statements starting at time `t`.  `exprDone`
takes no time and produces nothing; `recvDone` waits for the first signal
(blocking forever when there is none); `stopServer` calls `Stop` and returns
its error value, ending the body. -/
def runStmts (sig : SignalEnv) (stopResult : Option GoError) :
    List Stmt → Nat → TaskRun
  | [], t => TaskRun.finished [] t none
  | Stmt.exprDone :: rest, t => runStmts sig stopResult rest t
  | Stmt.recvDone :: rest, t =>
    match sig.firstSignal with
    | none => TaskRun.blockedForever []
    | some s => runStmts sig stopResult rest (max t s)
  | Stmt.stopServer :: _, t =>
    match stopResult with
    | some e => TaskRun.finished (stopAttemptEvents t (some e)) t (some e)
    | none => TaskRun.finished (stopAttemptEvents t none) t none

/-- The goroutine body as written in the source (`eg.Go(func() error { ... })`):
the expression statement `ctx.Done()` — NOT a receive — followed by the
stop-and-return block. -/
def goroutineBody : List Stmt := [Stmt.exprDone, Stmt.stopServer]

/-- Modelled from the spec: the coordination-task body the spec describes —
"block the current task until a cancellation signal arrives … on
cancellation, invoke the external server's stop operation".  It differs from
`goroutineBody` only in receiving from the channel instead of discarding it. -/
def awaitBody : List Stmt := [Stmt.recvDone, Stmt.stopServer]

/-- `fmt.Println("Error setting up the logger:", err)` events: one line when
logger construction failed, nothing otherwise. -/
def loggerSetupEvents (lerr : Option GoError) : List (Nat × Event) :=
  match lerr with
  | some e => [(0, Event.printErr ("Error setting up the logger: " ++ e))]
  | none => []

/-- The `server.Options` value `start` builds: `HOST` / `PORT` resolved with
their defaults, plus the constructed logger handle. -/
def resolvedOptions (w : World) : ServerOptions :=
  { Host := getStringOrDefault w.osEnv "HOST" "localhost"
    Log := (createLogger w.zap (getStringOrDefault w.osEnv "LOG_ENV" "development")).1
    Port := getIntOrDefault w.osEnv "PORT" 8080 }

/-- `if err := eg.Wait(); err != nil { return 1 }; return 0`. -/
def exitOf : Option GoError → Nat
  | some _ => 1
  | none => 0

/-- Outcome of `start`: normally it returns an exit code after `eg.Wait`
(and the deferred `log.Sync`) — `main` then calls `os.Exit` on that code —
but a body blocked forever would make `eg.Wait`, and hence the process, hang. -/
inductive StartOutcome where
  | exits (trace : List (Nat × Event)) (code : Nat)
  | hangs (trace : List (Nat × Event))

/-- The `start` function of `cmd/server/main.go`, parameterised by the body
handed to `eg.Go` (the source hands it `goroutineBody`):
resolve `LOG_ENV`, construct the logger (printing any construction error and
continuing), resolve `HOST`/`PORT`, build the server, launch the goroutine,
block in `eg.Wait` on its completion, run the deferred `log.Sync`, and map
the goroutine's returned error to exit code 1 (0 when `nil`). -/
def runStartWith (w : World) (body : List Stmt) : StartOutcome :=
  let logEnv := getStringOrDefault w.osEnv "LOG_ENV" "development"
  let constructed := createLogger w.zap logEnv
  let setup := loggerSetupEvents constructed.2
    ++ [(0, Event.serverCreated (resolvedOptions w))]
  match runStmts w.sig w.stopResult body 0 with
  | TaskRun.blockedForever tr => StartOutcome.hangs (setup ++ tr)
  | TaskRun.finished tr tEnd ret =>
    StartOutcome.exits
      (setup ++ tr ++ [(tEnd, Event.logSynced), (tEnd, Event.exited (exitOf ret))])
      (exitOf ret)

/-- `start` as compiled: the goroutine body is the source's `goroutineBody`. -/
def start (w : World) : StartOutcome := runStartWith w goroutineBody

/-- The event trace of a run of `start`. -/
def startTrace (w : World) : List (Nat × Event) :=
  match start w with
  | StartOutcome.exits tr _ => tr
  | StartOutcome.hangs tr => tr

/-- The exit status of the process, `none` when `start` never returns. -/
def startExitCode (w : World) : Option Nat :=
  match start w with
  | StartOutcome.exits _ c => some c
  | StartOutcome.hangs _ => none

/-- Whether the outcome is a forever-blocked process. -/
def hangsForever : StartOutcome → Bool
  | StartOutcome.hangs _ => true
  | StartOutcome.exits _ _ => false

/-- Recognises the `s.Stop()` invocation events of a trace. -/
def isStopCall (p : Nat × Event) : Bool := p.2 == Event.stopCalled

/-- Number of `s.Stop()` invocations in a trace. -/
def countStopCalls (tr : List (Nat × Event)) : Nat := tr.countP isStopCall

/-- Recognises the `log.Info("Error stopping server", …)` records. -/
def isStopErrorLog (p : Nat × Event) : Bool :=
  p.2 == Event.logInfo "Error stopping server"

/-- Number of stop-error log records in a trace. -/
def countStopErrorLogs (tr : List (Nat × Event)) : Nat := tr.countP isStopErrorLog

/-- Recognises process-exit events. -/
def isExitEvent : Event → Bool
  | Event.exited _ => true
  | _ => false

/-! ## Concrete worlds and environments used as witnesses and failing inputs -/

/-- A run in which no OS signal is ever delivered, every environment variable
is unset, the zap constructors succeed, and `Stop` succeeds. -/
def noSignalWorld : World :=
  { osEnv := fun _ => none
    zap := { newProduction := none, newDevelopment := none }
    sig := { firstSignal := none }
    stopResult := none }

/-- Like `noSignalWorld`, but `s.Stop()` returns an error. -/
def stopFailWorld : World :=
  { osEnv := fun _ => none
    zap := { newProduction := none, newDevelopment := none }
    sig := { firstSignal := none }
    stopResult := some "stop failed" }

/-- Like `noSignalWorld`, but `zap.NewDevelopment` (the constructor the
default `LOG_ENV` selects) fails. -/
def loggerFailWorld : World :=
  { osEnv := fun _ => none
    zap := { newProduction := none, newDevelopment := some "boom" }
    sig := { firstSignal := none }
    stopResult := none }

/-- An OS environment with only `PORT=9090` set. -/
def envPort9090 : OsEnv := fun n => if n = "PORT" then some "9090" else none

/-- An OS environment in which every variable reads `-70000` (negative and
outside the TCP port range). -/
def envPortNeg : OsEnv := fun _ => some "-70000"

/-- An OS environment with only `HOST` set, to the empty string. -/
def envHostEmpty : OsEnv := fun n => if n = "HOST" then some "" else none

/-! ## Structural lemmas about a run of `start` -/

/-- A run of the compiled `start` always returns: since the goroutine body
discards the cancellation channel instead of receiving from it, the task
finishes at time 0 with `Stop`'s result, and the trace has the fixed shape
below whatever the world looks like. -/
theorem start_run_eq (w : World) :
    start w = StartOutcome.exits
      (loggerSetupEvents
          (createLogger w.zap (getStringOrDefault w.osEnv "LOG_ENV" "development")).2
        ++ [(0, Event.serverCreated (resolvedOptions w))]
        ++ stopAttemptEvents 0 w.stopResult
        ++ [(0, Event.logSynced), (0, Event.exited (exitOf w.stopResult))])
      (exitOf w.stopResult) := by
  cases h : w.stopResult <;>
    simp [start, runStartWith, runStmts, goroutineBody, h, stopAttemptEvents,
      exitOf, List.append_assoc]

/-- The trace of a run, in the shape given by `start_run_eq`. -/
theorem startTrace_eq (w : World) :
    startTrace w =
      loggerSetupEvents
          (createLogger w.zap (getStringOrDefault w.osEnv "LOG_ENV" "development")).2
        ++ [(0, Event.serverCreated (resolvedOptions w))]
        ++ stopAttemptEvents 0 w.stopResult
        ++ [(0, Event.logSynced), (0, Event.exited (exitOf w.stopResult))] := by
  simp [startTrace, start_run_eq]

/-- The exit code of a run is `exitOf` of `Stop`'s result. -/
theorem startExitCode_eq (w : World) :
    startExitCode w = some (exitOf w.stopResult) := by
  simp [startExitCode, start_run_eq]

/-- Logger-setup output contains no `Stop` calls. -/
theorem countStopCalls_loggerSetup (lerr : Option GoError) :
    countStopCalls (loggerSetupEvents lerr) = 0 := by
  cases lerr <;> rfl

/-- Logger-setup output contains no stop-error log records. -/
theorem countStopErrorLogs_loggerSetup (lerr : Option GoError) :
    countStopErrorLogs (loggerSetupEvents lerr) = 0 := by
  cases lerr <;> rfl

/-- A stop attempt calls `Stop` exactly once, whatever `Stop` returns. -/
theorem countStopCalls_stopAttempt (t : Nat) (res : Option GoError) :
    countStopCalls (stopAttemptEvents t res) = 1 := by
  cases res <;> rfl

/-- A failing stop attempt produces exactly one stop-error log record. -/
theorem countStopErrorLogs_stopAttempt_some (t : Nat) (e : GoError) :
    countStopErrorLogs (stopAttemptEvents t (some e)) = 1 := rfl

/-- `countP` distributes over `++` for the `Stop`-call counter. -/
theorem countStopCalls_append (a b : List (Nat × Event)) :
    countStopCalls (a ++ b) = countStopCalls a + countStopCalls b := by
  simp [countStopCalls, List.countP_append]

/-- `countP` distributes over `++` for the stop-error-log counter. -/
theorem countStopErrorLogs_append (a b : List (Nat × Event)) :
    countStopErrorLogs (a ++ b) = countStopErrorLogs a + countStopErrorLogs b := by
  simp [countStopErrorLogs, List.countP_append]

/-- Every run of the compiled code calls `s.Stop()` exactly once. -/
theorem stop_called_once (w : World) : countStopCalls (startTrace w) = 1 := by
  rw [startTrace_eq, countStopCalls_append, countStopCalls_append,
    countStopCalls_append, countStopCalls_loggerSetup, countStopCalls_stopAttempt]
  rfl

/-- When `Stop` fails, exactly one stop-error record is logged in the run. -/
theorem stop_error_logged_once (w : World) (e : GoError) (h : w.stopResult = some e) :
    countStopErrorLogs (startTrace w) = 1 := by
  rw [startTrace_eq, countStopErrorLogs_append, countStopErrorLogs_append,
    countStopErrorLogs_append, countStopErrorLogs_loggerSetup, h,
    countStopErrorLogs_stopAttempt_some]
  rfl

/-! ## The claims -/

/-- Claim C1 (code bug): the claim says the coordination task blocks until a
SIGTERM/SIGINT is delivered and `Stop` is never called before one.  The
source body evaluates `ctx.Done()` as an expression statement, discarding
the channel instead of receiving from it, so in a world where no signal is
ever delivered the run still contains the `Stop` call — while the body the
spec describes (`awaitBody`, with an actual receive) would block forever
without calling `Stop`. -/
theorem C1_stop_called_without_any_signal :
    noSignalWorld.sig.firstSignal = none ∧
    (0, Event.stopCalled) ∈ startTrace noSignalWorld ∧
    hangsForever (runStartWith noSignalWorld awaitBody) = true :=
  ⟨rfl, by decide, rfl⟩

/-- Claim C2: the process exit status maps the coordination task's outcome
exactly — `Stop` returning success gives exit code 0, `Stop` returning any
failure gives exit code 1. -/
theorem C2_exit_code_maps_stop_outcome (w : World) :
    (w.stopResult = none → startExitCode w = some 0) ∧
    (∀ e : GoError, w.stopResult = some e → startExitCode w = some 1) := by
  constructor
  · intro h; rw [startExitCode_eq, h]; rfl
  · intro e h; rw [startExitCode_eq, h]; rfl

/-- Witness for C2 at concrete worlds in which `Stop` succeeds / fails. -/
theorem C2_witness :
    startExitCode noSignalWorld = some 0 ∧ startExitCode stopFailWorld = some 1 :=
  ⟨(C2_exit_code_maps_stop_outcome noSignalWorld).1 rfl,
    (C2_exit_code_maps_stop_outcome stopFailWorld).2 "stop failed" rfl⟩

/-- Claim C3: each of the three configuration values equals the
environment's value when present (and, for `PORT`, parseable as a base-10
integer) and the documented default otherwise — `LOG_ENV` defaults to
`"development"`, `HOST` to `"localhost"`, `PORT` to `8080`; `PORT="abc"`
resolves to 8080 and `PORT="9090"` to 9090. -/
theorem C3_config_resolution (e : OsEnv) :
    (∀ v, e "LOG_ENV" = some v → getStringOrDefault e "LOG_ENV" "development" = v) ∧
    (e "LOG_ENV" = none → getStringOrDefault e "LOG_ENV" "development" = "development") ∧
    (∀ v, e "HOST" = some v → getStringOrDefault e "HOST" "localhost" = v) ∧
    (e "HOST" = none → getStringOrDefault e "HOST" "localhost" = "localhost") ∧
    (∀ v n, e "PORT" = some v → atoi v = some n → getIntOrDefault e "PORT" 8080 = n) ∧
    (e "PORT" = none → getIntOrDefault e "PORT" 8080 = 8080) ∧
    (∀ v, e "PORT" = some v → atoi v = none → getIntOrDefault e "PORT" 8080 = 8080) ∧
    (e "PORT" = some "abc" → getIntOrDefault e "PORT" 8080 = 8080) ∧
    (e "PORT" = some "9090" → getIntOrDefault e "PORT" 8080 = 9090) := by
  refine ⟨?_, ?_, ?_, ?_, ?_, ?_, ?_, ?_, ?_⟩
  · intro v h; unfold getStringOrDefault; rw [h]
  · intro h; unfold getStringOrDefault; rw [h]
  · intro v h; unfold getStringOrDefault; rw [h]
  · intro h; unfold getStringOrDefault; rw [h]
  · intro v n h hp; simp [getIntOrDefault, h, hp]
  · intro h; unfold getIntOrDefault; rw [h]
  · intro v h hp; simp [getIntOrDefault, h, hp]
  · intro h; unfold getIntOrDefault; rw [h]; decide
  · intro h; unfold getIntOrDefault; rw [h]; decide

/-- Witness for C3: with only `PORT=9090` set, `LOG_ENV` falls back to its
default and the port resolves to 9090. -/
theorem C3_witness :
    getStringOrDefault envPort9090 "LOG_ENV" "development" = "development" ∧
    getIntOrDefault envPort9090 "PORT" 8080 = 9090 :=
  ⟨(C3_config_resolution envPort9090).2.1 (by decide),
    (C3_config_resolution envPort9090).2.2.2.2.2.2.2.2 (by decide)⟩

/-- Claim C4: logger construction selects exactly one of the three profiles
as a function of the environment name — `"production"` the production
profile, `"development"` the development profile, every other string
(including the empty string) the no-op profile. -/
theorem C4_logger_profile_selection (w : ZapWorld) (env : String) :
    (createLogger w env).1 =
      (if env = "production" then LoggerProfile.production
        else if env = "development" then LoggerProfile.development
        else LoggerProfile.nop) := by
  unfold createLogger
  by_cases h1 : env = "production" <;> by_cases h2 : env = "development" <;>
    simp [h1, h2]

/-- Claim C5: a logger-construction failure is never fatal — every run of
`start` reaches its return, and whenever the selected zap constructor
failed, the error is printed on standard output and the run still
completes. -/
theorem C5_logger_failure_not_fatal (w : World) :
    (∃ tr c, start w = StartOutcome.exits tr c) ∧
    (∀ e, (createLogger w.zap (getStringOrDefault w.osEnv "LOG_ENV" "development")).2 = some e →
      (0, Event.printErr ("Error setting up the logger: " ++ e)) ∈ startTrace w) := by
  constructor
  · exact ⟨_, _, start_run_eq w⟩
  · intro e h
    rw [startTrace_eq, h]
    simp [loggerSetupEvents]

/-- Witness for C5: a world whose development-profile construction fails. -/
theorem C5_witness :
    (∃ tr c, start loggerFailWorld = StartOutcome.exits tr c) ∧
    (0, Event.printErr ("Error setting up the logger: " ++ "boom")) ∈
      startTrace loggerFailWorld :=
  ⟨(C5_logger_failure_not_fatal loggerFailWorld).1,
    (C5_logger_failure_not_fatal loggerFailWorld).2 "boom" (by decide)⟩

/-- Claim C6 (code bug): `Stop` is indeed invoked exactly once per process
run with no repeated calls — but the invocation is not triggered by the
first delivered termination signal: in a world where no signal is ever
delivered, the run still contains its single `Stop` call, because the body
discards the cancellation channel instead of receiving from it. -/
theorem C6_single_stop_call_yet_no_signal_needed :
    (∀ w : World, countStopCalls (startTrace w) = 1) ∧
    (noSignalWorld.sig.firstSignal = none ∧
      countStopCalls (startTrace noSignalWorld) = 1) :=
  ⟨fun w => stop_called_once w, rfl, stop_called_once noSignalWorld⟩

/-- Claim C7: when `Stop` returns a failure it is logged exactly once, the
exit code is 1, and `Stop` is not retried (it is called exactly once). -/
theorem C7_stop_failure_logged_once (w : World) (e : GoError)
    (h : w.stopResult = some e) :
    startExitCode w = some 1 ∧
    countStopErrorLogs (startTrace w) = 1 ∧
    countStopCalls (startTrace w) = 1 := by
  refine ⟨?_, stop_error_logged_once w e h, stop_called_once w⟩
  rw [startExitCode_eq, h]; rfl

/-- Witness for C7 at a concrete world whose `Stop` fails. -/
theorem C7_witness :
    startExitCode stopFailWorld = some 1 ∧
    countStopErrorLogs (startTrace stopFailWorld) = 1 ∧
    countStopCalls (startTrace stopFailWorld) = 1 :=
  C7_stop_failure_logged_once stopFailWorld "stop failed" rfl

/-- Claim C8: integer configuration resolution performs no range
validation — every environment value that `strconv.Atoi` parses (negative
values and values outside the TCP port range included) is returned as the
port unchanged; the function is total, so no error is ever raised. -/
theorem C8_parsed_value_unvalidated (e : OsEnv) (name : String) (d : Int)
    (v : String) (n : Int) (hv : e name = some v) (hp : atoi v = some n) :
    getIntOrDefault e name d = n := by
  simp [getIntOrDefault, hv, hp]

/-- Witness for C8: `PORT=-70000` — negative and far outside the valid TCP
port range — resolves to -70000 unchanged. -/
theorem C8_witness : getIntOrDefault envPortNeg "PORT" 8080 = -70000 :=
  C8_parsed_value_unvalidated envPortNeg "PORT" 8080 "-70000" (-70000) rfl (by decide)

/-- Claim C9: the process does not exit before the coordination task has
completed — in every run the process-exit event is the final event of the
trace, stamped no earlier than every preceding event (the `Stop` call
among them), and the exit status is exactly the code of that final event. -/
theorem C9_process_waits_for_task (w : World) :
    ∃ tr tEnd c, start w = StartOutcome.exits (tr ++ [(tEnd, Event.exited c)]) c ∧
      (0, Event.stopCalled) ∈ tr ∧
      tr.all (fun p => Nat.ble p.1 tEnd && !isExitEvent p.2) = true := by
  refine ⟨loggerSetupEvents
        (createLogger w.zap (getStringOrDefault w.osEnv "LOG_ENV" "development")).2
      ++ [(0, Event.serverCreated (resolvedOptions w))]
      ++ stopAttemptEvents 0 w.stopResult
      ++ [(0, Event.logSynced)], 0, exitOf w.stopResult, ?_, ?_, ?_⟩
  · rw [start_run_eq]
    simp [List.append_assoc]
  · cases w.stopResult <;> simp [stopAttemptEvents]
  · cases hc : (createLogger w.zap (getStringOrDefault w.osEnv "LOG_ENV" "development")).2 <;>
      cases hr : w.stopResult <;>
        simp [loggerSetupEvents, stopAttemptEvents, isExitEvent]

/-- Claim C10: a string environment variable set to the empty string
resolves to the empty string, not to the default — the fallback applies
only when the variable is absent. -/
theorem C10_empty_string_kept (e : OsEnv) (name d : String)
    (h : e name = some "") :
    getStringOrDefault e name d = "" := by
  unfold getStringOrDefault; rw [h]

/-- Witness for C10: `HOST=""` resolves to `""`, not `"localhost"`. -/
theorem C10_witness : getStringOrDefault envHostEmpty "HOST" "localhost" = "" :=
  C10_empty_string_kept envHostEmpty "HOST" "localhost" (by decide)

end Canvas
